import Mathlib

/-!
Verification of the Resume-Ranking repository's criteria-extraction and
scoring pipeline (src/extract.py and src/rank.py) against its
natural-language specification.

The Python code is shallowly embedded: Python dicts parsed from JSON are
association lists with Python's dict-insert semantics (later duplicate key
overwrites the value in place), exceptions become `Except`, and the external
collaborators (OpenAI completion service, PyPDF2/docx text extraction) are
passed in as function arguments or per-file outcome fields.
-/

namespace ResumeRanking

/-- Values produced by Python's `json.loads` and (on the fragment modelled
here) `ast.literal_eval`: JSON null / Python None, booleans, numbers,
strings, arrays/lists, and objects/dicts as association lists in insertion
order.  A numeral is kept exactly as the decimal mantissa/exponent pair its
spelling denotes (value `m * 10 ^ e`), which keeps the syntactic
distinction Python keeps between `int` and `float` spellings and avoids
modelling floating point. -/
inductive Json where
  | null : Json
  | bool (b : Bool) : Json
  | num (m : ℤ) (e : ℤ) : Json
  | str (s : String) : Json
  | arr (elems : List Json) : Json
  | obj (entries : List (String × Json)) : Json

/-- Shorthand for an integer-spelled JSON number. -/
def Json.int (n : ℤ) : Json :=
  Json.num n 0

/-- Rational value denoted by a `Json.num` mantissa/exponent pair. -/
def numVal : Json → Option ℚ
  | .num m e => some (if 0 ≤ e then (m : ℚ) * 10 ^ e.toNat else (m : ℚ) / 10 ^ (-e).toNat)
  | _ => none

/-- Python dict insertion `d[k] = v`: an existing key keeps its position and
gets the new value; a new key is appended.  `json.loads` builds objects this
way, pair by pair, so a duplicate key keeps the first position with the last
value. -/
def dictInsert (entries : List (String × Json)) (k : String) (v : Json) :
    List (String × Json) :=
  if entries.any (fun e => e.1 = k) then
    entries.map (fun e => if e.1 = k then (k, v) else e)
  else
    entries ++ [(k, v)]

/-- Python dict lookup `d.get(k, default)` on an entries list (first match;
keys are unique when built by `dictInsert`). -/
def dictGetD (entries : List (String × Json)) (k : String) (default : Json) :
    Json :=
  match entries.find? (fun e => e.1 = k) with
  | some e => e.2
  | none => default

/-- JSON whitespace accepted between tokens by Python's `json.loads`. -/
def isJsonWs (c : Char) : Bool :=
  c = ' ' ∨ c = '\t' ∨ c = '\n' ∨ c = '\r'

def skipWs (cs : List Char) : List Char :=
  cs.dropWhile isJsonWs

def isDigitChar (c : Char) : Bool :=
  '0' ≤ c ∧ c ≤ '9'

def digitVal (c : Char) : ℕ :=
  c.toNat - '0'.toNat

def digitsToNat (ds : List Char) : ℕ :=
  ds.foldl (fun acc d => 10 * acc + digitVal d) 0

/-- Hexadecimal digit value, for `\uXXXX` string escapes. -/
def hexVal (c : Char) : Option ℕ :=
  if isDigitChar c then some (digitVal c)
  else if 'a' ≤ c ∧ c ≤ 'f' then some (c.toNat - 'a'.toNat + 10)
  else if 'A' ≤ c ∧ c ≤ 'F' then some (c.toNat - 'A'.toNat + 10)
  else none

/-- Parse the body of a JSON string literal after the opening quote, in the
strict mode of `json.loads`: raw control characters are rejected, only the
standard escapes and `\uXXXX` are accepted (surrogate-pair recombination is
outside the modelled fragment).  Returns the decoded characters and the
input following the closing quote. -/
def parseJStr (fuel : ℕ) (cs : List Char) : Option (List Char × List Char) :=
  match fuel, cs with
  | 0, _ => none
  | _, [] => none
  | fuel + 1, c :: rest =>
    if c = '"' then
      some ([], rest)
    else if c = '\\' then
      match rest with
      | [] => none
      | e :: rest2 =>
        let decoded : Option (Char × List Char) :=
          if e = '"' then some ('"', rest2)
          else if e = '\\' then some ('\\', rest2)
          else if e = '/' then some ('/', rest2)
          else if e = 'b' then some ('\x08', rest2)
          else if e = 'f' then some ('\x0c', rest2)
          else if e = 'n' then some ('\n', rest2)
          else if e = 'r' then some ('\r', rest2)
          else if e = 't' then some ('\t', rest2)
          else if e = 'u' then
            match rest2 with
            | h1 :: h2 :: h3 :: h4 :: rest3 =>
              match hexVal h1, hexVal h2, hexVal h3, hexVal h4 with
              | some a, some b, some c', some d =>
                some (Char.ofNat (((a * 16 + b) * 16 + c') * 16 + d), rest3)
              | _, _, _, _ => none
            | _ => none
          else none
        match decoded with
        | none => none
        | some (ch, rest') =>
          match parseJStr fuel rest' with
          | some (tail, rem) => some (ch :: tail, rem)
          | none => none
    else if c.toNat < 0x20 then
      none
    else
      match parseJStr fuel rest with
      | some (tail, rem) => some (c :: tail, rem)
      | none => none

/-- Parse a JSON number (strict `json.loads` grammar: optional minus, integer
part without leading zeros, optional fraction, optional exponent) into a
decimal mantissa/exponent pair.  Returns the pair and the remaining
input. -/
def parseJNum (cs : List Char) : Option ((ℤ × ℤ) × List Char) :=
  let (neg, cs1) :=
    match cs with
    | '-' :: rest => (true, rest)
    | _ => (false, cs)
  let intDigits := cs1.takeWhile isDigitChar
  let cs2 := cs1.dropWhile isDigitChar
  if intDigits = [] then none
  else if intDigits.length > 1 ∧ intDigits.headI = '0' then none
  else
    let (fracPart, cs3) :=
      match cs2 with
      | '.' :: rest =>
        let fds := rest.takeWhile isDigitChar
        ((if fds = [] then none else some fds), rest.dropWhile isDigitChar)
      | _ => (some [], cs2)
    match fracPart with
    | none => none
    | some fracDigits =>
      let (expPart, cs4) :=
        match cs3 with
        | e :: rest =>
          if e = 'e' ∨ e = 'E' then
            let (esign, rest1) :=
              match rest with
              | '+' :: r => ((1 : ℤ), r)
              | '-' :: r => ((-1 : ℤ), r)
              | _ => ((1 : ℤ), rest)
            let eds := rest1.takeWhile isDigitChar
            ((if eds = [] then none else some (esign * (digitsToNat eds : ℤ))),
             rest1.dropWhile isDigitChar)
          else (some 0, cs3)
        | [] => (some 0, cs3)
      match expPart with
      | none => none
      | some e =>
        let mag : ℤ :=
          (digitsToNat intDigits * 10 ^ fracDigits.length + digitsToNat fracDigits : ℕ)
        some ((if neg then -mag else mag, e - fracDigits.length), cs4)

mutual

/-- One JSON value in the strict grammar of Python's `json.loads` (the
`NaN`/`Infinity` extensions are outside the modelled fragment).  `fuel`
strictly decreases on every recursive call; callers supply more fuel than
the input length can consume. -/
def parseJValue : ℕ → List Char → Option (Json × List Char)
  | 0, _ => none
  | fuel + 1, cs =>
    match skipWs cs with
    | [] => none
    | c :: rest =>
      if c = '{' then
        match skipWs rest with
        | '}' :: rest2 => some (.obj [], rest2)
        | _ => parseJMembers fuel rest []
      else if c = '[' then
        match skipWs rest with
        | ']' :: rest2 => some (.arr [], rest2)
        | _ => parseJElems fuel rest []
      else if c = '"' then
        match parseJStr (rest.length + 1) rest with
        | some (chars, rem) => some (.str ⟨chars⟩, rem)
        | none => none
      else if c = 't' then
        if rest.take 3 = ['r', 'u', 'e'] then some (.bool true, rest.drop 3)
        else none
      else if c = 'f' then
        if rest.take 4 = ['a', 'l', 's', 'e'] then some (.bool false, rest.drop 4)
        else none
      else if c = 'n' then
        if rest.take 3 = ['u', 'l', 'l'] then some (.null, rest.drop 3)
        else none
      else
        match parseJNum (c :: rest) with
        | some (mh, rem) => some (.num mh.1 mh.2, rem)
        | none => none

/-- Members of a JSON object after the opening brace (input known not to be
immediately `}`), accumulating entries with Python dict semantics. -/
def parseJMembers : ℕ → List Char → List (String × Json) →
    Option (Json × List Char)
  | 0, _, _ => none
  | fuel + 1, cs, acc =>
    match skipWs cs with
    | '"' :: rest =>
      match parseJStr (rest.length + 1) rest with
      | none => none
      | some (key, rest1) =>
        match skipWs rest1 with
        | ':' :: rest2 =>
          match parseJValue fuel rest2 with
          | none => none
          | some (v, rest3) =>
            let acc2 := dictInsert acc ⟨key⟩ v
            match skipWs rest3 with
            | ',' :: rest4 => parseJMembers fuel rest4 acc2
            | '}' :: rest4 => some (.obj acc2, rest4)
            | _ => none
        | _ => none
    | _ => none

/-- Elements of a JSON array after the opening bracket (input known not to
be immediately `]`). -/
def parseJElems : ℕ → List Char → List Json → Option (Json × List Char)
  | 0, _, _ => none
  | fuel + 1, cs, acc =>
    match parseJValue fuel cs with
    | none => none
    | some (v, rest) =>
      match skipWs rest with
      | ',' :: rest2 => parseJElems fuel rest2 (acc ++ [v])
      | ']' :: rest2 => some (.arr (acc ++ [v]), rest2)
      | _ => none

end

/-- Python's `json.loads`: parse one JSON document; trailing non-whitespace
input is an error ("Extra data"). -/
def jsonParse (s : String) : Option Json :=
  match parseJValue (2 * s.data.length + 4) s.data with
  | some (v, rest) => if skipWs rest = [] then some v else none
  | none => none

/-- Whitespace for Python's `str.strip`. -/
def isPyWs (c : Char) : Bool :=
  c = ' ' ∨ c = '\t' ∨ c = '\n' ∨ c = '\r' ∨ c = '\x0b' ∨ c = '\x0c'

/-- Python `str.strip()`: remove leading and trailing whitespace. -/
def pyStrip (s : String) : String :=
  ⟨(s.data.dropWhile isPyWs).reverse.dropWhile isPyWs |>.reverse⟩

/-- Python `str.replace(pat, rep)`: replace every non-overlapping
occurrence of `pat`, scanning left to right (`pat` non-empty here). -/
def replaceAux (fuel : ℕ) (pat rep : List Char) (cs : List Char) :
    List Char :=
  match fuel, cs with
  | 0, cs => cs
  | _, [] => []
  | fuel + 1, c :: rest =>
    if pat.isPrefixOf (c :: rest) then
      rep ++ replaceAux fuel pat rep ((c :: rest).drop pat.length)
    else
      c :: replaceAux fuel pat rep rest

def pyReplace (s pat rep : String) : String :=
  ⟨replaceAux (s.data.length + 1) pat.data rep.data s.data⟩

/-- extract.py line 95: `criteria_text.replace("True", "true").replace("False", "false")` -/
def pyNormalize (s : String) : String :=
  pyReplace (pyReplace s ("True") ("true")) ("False") ("false")

/-- Body of a Python string literal delimited by `quote`, for the
`ast.literal_eval` fallback.  Modelled fragment: the escapes
`\\ \' \" \n \t \r`; an unrecognized escape keeps the backslash (Python's
behaviour); a raw newline inside the literal is a syntax error. -/
def parseLStr (fuel : ℕ) (quote : Char) (cs : List Char) :
    Option (List Char × List Char) :=
  match fuel, cs with
  | 0, _ => none
  | _, [] => none
  | fuel + 1, c :: rest =>
    if c = quote then
      some ([], rest)
    else if c = '\\' then
      match rest with
      | [] => none
      | e :: rest2 =>
        let decoded : List Char :=
          if e = '\\' then ['\\']
          else if e = '\'' then ['\'']
          else if e = '"' then ['"']
          else if e = 'n' then ['\n']
          else if e = 't' then ['\t']
          else if e = 'r' then ['\r']
          else ['\\', e]
        match parseLStr fuel quote rest2 with
        | some (tail, rem) => some (decoded ++ tail, rem)
        | none => none
    else if c = '\n' then
      none
    else
      match parseLStr fuel quote rest with
      | some (tail, rem) => some (c :: tail, rem)
      | none => none

mutual

/-- One Python literal for the `ast.literal_eval` fallback of extract.py.
Modelled fragment: dict and list displays (with optional trailing comma),
single- or double-quoted strings, `True`/`False`/`None`, and JSON-shaped
numerals; tuples, sets, bytes, string prefixes and exotic numeral
spellings are outside the fragment. -/
def parseLValue : ℕ → List Char → Option (Json × List Char)
  | 0, _ => none
  | fuel + 1, cs =>
    match skipWs cs with
    | [] => none
    | c :: rest =>
      if c = '{' then
        match skipWs rest with
        | '}' :: rest2 => some (.obj [], rest2)
        | _ => parseLMembers fuel rest []
      else if c = '[' then
        match skipWs rest with
        | ']' :: rest2 => some (.arr [], rest2)
        | _ => parseLElems fuel rest []
      else if c = '\'' ∨ c = '"' then
        match parseLStr (rest.length + 1) c rest with
        | some (chars, rem) => some (.str ⟨chars⟩, rem)
        | none => none
      else if c = 'T' then
        if rest.take 3 = ['r', 'u', 'e'] then some (.bool true, rest.drop 3)
        else none
      else if c = 'F' then
        if rest.take 4 = ['a', 'l', 's', 'e'] then some (.bool false, rest.drop 4)
        else none
      else if c = 'N' then
        if rest.take 3 = ['o', 'n', 'e'] then some (.null, rest.drop 3)
        else none
      else
        match parseJNum (c :: rest) with
        | some (mh, rem) => some (.num mh.1 mh.2, rem)
        | none => none

/-- Members of a Python dict display (string keys in the modelled
fragment), built with Python dict-insert semantics; a trailing comma is
allowed. -/
def parseLMembers : ℕ → List Char → List (String × Json) →
    Option (Json × List Char)
  | 0, _, _ => none
  | fuel + 1, cs, acc =>
    match parseLValue fuel cs with
    | some (.str key, rest1) =>
      match skipWs rest1 with
      | ':' :: rest2 =>
        match parseLValue fuel rest2 with
        | none => none
        | some (v, rest3) =>
          let acc2 := dictInsert acc key v
          match skipWs rest3 with
          | ',' :: rest4 =>
            match skipWs rest4 with
            | '}' :: rest5 => some (.obj acc2, rest5)
            | _ => parseLMembers fuel rest4 acc2
          | '}' :: rest4 => some (.obj acc2, rest4)
          | _ => none
      | _ => none
    | _ => none

/-- Elements of a Python list display; a trailing comma is allowed. -/
def parseLElems : ℕ → List Char → List Json → Option (Json × List Char)
  | 0, _, _ => none
  | fuel + 1, cs, acc =>
    match parseLValue fuel cs with
    | none => none
    | some (v, rest) =>
      match skipWs rest with
      | ',' :: rest2 =>
        match skipWs rest2 with
        | ']' :: rest3 => some (.arr (acc ++ [v]), rest3)
        | _ => parseLElems fuel rest2 (acc ++ [v])
      | ']' :: rest2 => some (.arr (acc ++ [v]), rest2)
      | _ => none

end

/-- Python's `ast.literal_eval` on the modelled literal fragment: parse one
literal expression, tolerating surrounding whitespace, rejecting trailing
input. -/
def literalEval (s : String) : Option Json :=
  match parseLValue (2 * s.data.length + 4) s.data with
  | some (v, rest) => if skipWs rest = [] then some v else none
  | none => none

/-- The one failure extract.py can surface from criteria extraction:
`HTTPException(status_code=500, detail=f"Error processing text with OpenAI: {e}")`,
raised by the catch-all around the completion call and both parse attempts.
Its detail wraps the exception message `e`, not the completion text. -/
inductive ExtractErr where
  | openaiProcessing : ExtractErr
deriving DecidableEq

/-- extract.py lines 92-106, from the completion's message content on:
strip whitespace, replace `True`/`False` with `true`/`false` everywhere,
`json.loads` the normalized text; on failure fall back to
`ast.literal_eval` on the unnormalized `criteria_text`; if that also fails
the enclosing handler raises the generic OpenAI-processing error. -/
def extract_criteria_from_text (content : String) : Except ExtractErr Json :=
  let criteria_text := pyStrip content
  let normalized_text := pyNormalize criteria_text
  match jsonParse normalized_text with
  | some parsed => .ok parsed
  | none =>
    match literalEval criteria_text with
    | some parsed => .ok parsed
    | none => .error .openaiProcessing

/-- Failures of the rank.py scoring endpoint that the embedding
distinguishes: the `HTTPException(400, "Error processing PDF/DOCX: ...")`
raised by `extract_text_from_pdf`/`extract_text_from_docx`, the
`HTTPException(500, "Error calling GPT API: ...")` from the completion
call, the `HTTPException(500, "Error parsing GPT response: {e}. Response
was: {reply}")` whose detail carries the text the parse was attempted on,
and the `AttributeError` Python raises when `.get` is called on a
non-dict. -/
inductive RankErr where
  | docExtract (detail : String) : RankErr
  | completionApi (detail : String) : RankErr
  | scoreParse (textTried : String) : RankErr
  | getOnNonDict : RankErr
deriving DecidableEq

/-- rank.py line 126: `completion.choices[0].message.content[7:-3]` — the
Python slice keeping characters at indices `7 ≤ i < len - 3`, i.e.
dropping a 7-character prefix and a 3-character suffix (empty when the
content is shorter than 10 characters). -/
def stripReply (content : String) : String :=
  ⟨(content.data.drop 7).take (content.data.length - 10)⟩

/-- rank.py lines 126-131: the parse stage of `get_gpt_scores` applied to
the completion's message content. -/
def gptScoresOfCompletion (content : String) : Except RankErr Json :=
  let reply := stripReply content
  match jsonParse reply with
  | some result => .ok result
  | none => .error (.scoreParse reply)

/-- rank.py lines 46-131, `get_gpt_scores`: one completion request for the
candidate (the CompletionService collaborator, which already closes over
the prompt's fixed criteria payload), then strip-and-parse its content. -/
def get_gpt_scores (completionOf : String → String → Except RankErr String)
    (candidate_name resume_text : String) : Except RankErr Json := do
  let content ← completionOf candidate_name resume_text
  gptScoresOfCompletion content

/-- Python `j.get(k, default)`: dict lookup with default, or the
`AttributeError` raised when `j` is not a dict. -/
def pyGetD (j : Json) (k : String) (default : Json) : Except RankErr Json :=
  match j with
  | .obj entries => .ok (dictGetD entries k default)
  | _ => .error .getOnNonDict

/-- rank.py lines 198-199: one score cell,
`gpt_result.get("scores", {}).get(group, {}).get(crit_key, 0)`. -/
def cellOf (gpt_result : Json) (group crit_key : String) :
    Except RankErr Json := do
  let scores ← pyGetD gpt_result ("scores") (.obj [])
  let group_scores ← pyGetD scores group (.obj [])
  pyGetD group_scores crit_key (.num 0 0)

/-- rank.py lines 197-200: the `for group, crit_key in flattened_criteria`
loop, appending one score cell per flattened pair (in order). -/
def rowCells (gpt_result : Json) :
    List (String × String) → Except RankErr (List Json)
  | [] => .ok []
  | gc :: rest => do
    let cell ← cellOf gpt_result gc.1 gc.2
    let cells ← rowCells gpt_result rest
    return (cell :: cells)

/-- rank.py lines 196-201: one CSV row — candidate name, one cell per
flattened (group, criterion) pair, then `gpt_result.get("total_score", 0)`
last. -/
def buildRow (flattened_criteria : List (String × String))
    (candidate_name : String) (gpt_result : Json) :
    Except RankErr (List Json) := do
  let cells ← rowCells gpt_result flattened_criteria
  let total ← pyGetD gpt_result ("total_score") (.num 0 0)
  return (.str candidate_name :: cells ++ [total])

/-- rank.py lines 165-173: the flattening loop over `criteria_data.items()`
(a Python dict iterates in key-insertion order), appending to
`flattened_criteria` and `headers` and skipping groups whose value is not
a dict. -/
def flattenAndHeaders (criteria_data : List (String × Json)) :
    List (String × String) × List String :=
  criteria_data.foldl
    (fun acc entry =>
      match entry.2 with
      | .obj group_criteria =>
        (acc.1 ++ group_criteria.map (fun kv => (entry.1, kv.1)),
         acc.2 ++ group_criteria.map (fun kv => entry.1 ++ ": " ++ kv.1))
      | _ => acc)
    ([], [])

/-- rank.py line 177: `["Candidate Name"] + headers + ["Total Score"]`. -/
def csvHeader (criteria_data : List (String × Json)) : List String :=
  "Candidate Name" :: (flattenAndHeaders criteria_data).2 ++ ["Total Score"]

/-- Python `str.lower()` on the ASCII fragment relevant to file
extensions. -/
def pyLower (s : String) : String :=
  ⟨s.data.map Char.toLower⟩

/-- Python `str.endswith(suf)`. -/
def pyEndsWith (s suf : String) : Bool :=
  suf.data.reverse.isPrefixOf s.data.reverse

/-- rank.py line 183: `filename.rsplit(".", 1)[0]` — everything up to the
last dot, or the whole name when it has no dot. -/
def rsplitDotHead (s : String) : String :=
  if s.data.contains '.' then
    ⟨((s.data.reverse.dropWhile (fun c => ¬ c = '.')).drop 1).reverse⟩
  else s

/-- One uploaded resume file as the batch loop sees it: its name, and the
outcome of the document-to-text step (the external PyPDF2 / python-docx
collaborators wrapped by `extract_text_from_pdf` / `extract_text_from_docx`,
which return the text or raise an `HTTPException(400, ...)`).  The outcome
is only consulted when the file's extension selects an extractor. -/
structure UploadedFile where
  filename : String
  extractResult : Except RankErr String

/-- rank.py lines 181-202, the batch loop of `score_resumes`: for each
file, derive the candidate name, dispatch on the (lowercased) extension —
`.pdf` and `.docx` run their extractor, anything else is skipped with
`continue` — then score via `get_gpt_scores` and append the row.  Any
exception raised inside the loop propagates and aborts the whole request,
which the `Except` monad mirrors. -/
def scoreResumesRows (flattened_criteria : List (String × String))
    (completionOf : String → String → Except RankErr String) :
    List UploadedFile → Except RankErr (List (List Json))
  | [] => .ok []
  | f :: rest =>
    let candidate_name := rsplitDotHead f.filename
    if pyEndsWith (pyLower f.filename) ".pdf"
        ∨ pyEndsWith (pyLower f.filename) ".docx" then do
      let resume_text ← f.extractResult
      let gpt_result ← get_gpt_scores completionOf candidate_name resume_text
      let row ← buildRow flattened_criteria candidate_name gpt_result
      let rows ← scoreResumesRows flattened_criteria completionOf rest
      return (row :: rows)
    else
      scoreResumesRows flattened_criteria completionOf rest

/-- Flattened (group, criterion) pairs contributed by one top-level entry
of the criteria mapping, for stating what the flattening loop produces. -/
def groupPairs (entry : String × Json) : List (String × String) :=
  match entry.2 with
  | .obj group_criteria => group_criteria.map (fun kv => (entry.1, kv.1))
  | _ => []

/-- Header labels contributed by one top-level entry of the criteria
mapping. -/
def groupLabels (entry : String × Json) : List String :=
  match entry.2 with
  | .obj group_criteria => group_criteria.map (fun kv => entry.1 ++ ": " ++ kv.1)
  | _ => []

/-- Modelled from the spec's flattening words, for comparison with the
code's `flattenAndHeaders`: "iterate tiers in fixed order (Must, Good,
Nice); within each tier iterate criteria in the order they appear in the
CriteriaSet"; each pair becomes one column labeled
`"<tier label>: <criterion name>"`. -/
def buildHeaderSpec (criteria_data : List (String × Json)) : List String :=
  ["Must have", "Good to have", "Nice to have"].flatMap
    (fun tier =>
      match criteria_data.find? (fun e => e.1 = tier) with
      | some (_, .obj group_criteria) =>
        group_criteria.map (fun kv => tier ++ ": " ++ kv.1)
      | _ => [])

section Lemmas

/-- The flattening fold appends each entry's contribution, in the order the
entries appear. -/
theorem flattenAndHeaders_foldl (criteria_data : List (String × Json))
    (acc : List (String × String) × List String) :
    criteria_data.foldl
      (fun acc entry =>
        match entry.2 with
        | .obj group_criteria =>
          (acc.1 ++ group_criteria.map (fun kv => (entry.1, kv.1)),
           acc.2 ++ group_criteria.map (fun kv => entry.1 ++ ": " ++ kv.1))
        | _ => acc)
      acc
    = (acc.1 ++ criteria_data.flatMap groupPairs,
       acc.2 ++ criteria_data.flatMap groupLabels) := by
  induction criteria_data generalizing acc with
  | nil => simp
  | cons e rest ih =>
    cases e with
    | mk g v =>
      cases v <;>
        simp [List.foldl_cons, ih, groupPairs, groupLabels, List.flatMap_cons,
          List.append_assoc]

theorem flattenAndHeaders_eq (criteria_data : List (String × Json)) :
    flattenAndHeaders criteria_data
      = (criteria_data.flatMap groupPairs, criteria_data.flatMap groupLabels) := by
  have h := flattenAndHeaders_foldl criteria_data ([], [])
  simpa [flattenAndHeaders] using h

/-- Looking up a key other than the inserted one is unchanged by a Python
dict insert. -/
theorem dictGetD_dictInsert_ne (entries : List (String × Json))
    (k' : String) (v : Json) (k : String) (d : Json) (h : k ≠ k') :
    dictGetD (dictInsert entries k' v) k d = dictGetD entries k d := by
  unfold dictInsert dictGetD
  by_cases hmem : entries.any (fun e => e.1 = k') = true
  · rw [if_pos hmem, List.find?_map]
    have hpred : ((fun e : String × Json => decide (e.1 = k)) ∘
          fun e : String × Json => if e.1 = k' then (k', v) else e)
        = (fun e : String × Json => decide (e.1 = k)) := by
      funext e
      by_cases he : e.1 = k' <;> simp [he, Function.comp, Ne.symm h]
    rw [hpred]
    cases hf : entries.find? (fun e => decide (e.1 = k)) with
    | none => simp
    | some e =>
      have hek : e.1 = k := by simpa using List.find?_some hf
      simp [hek, fun hkk : k = k' => h hkk]
  · rw [if_neg hmem, List.find?_append]
    cases hf : entries.find? (fun e => decide (e.1 = k)) with
    | none => simp [Option.or, Ne.symm h]
    | some e => simp [Option.or]

/-- The cells of a row, when they are produced at all, are one per
flattened pair. -/
theorem rowCells_length (gpt : Json) (fl : List (String × String))
    (cells : List Json) (h : rowCells gpt fl = .ok cells) :
    cells.length = fl.length := by
  induction fl generalizing cells with
  | nil =>
    have h' : Except.ok ([] : List Json) = Except.ok cells := h
    cases h'
    rfl
  | cons gc rest ih =>
    simp only [rowCells] at h
    cases hc : cellOf gpt gc.1 gc.2 with
    | error e =>
      rw [hc] at h
      exact absurd h (fun hh => Except.noConfusion hh)
    | ok c =>
      rw [hc] at h
      cases hr : rowCells gpt rest with
      | error e =>
        rw [hr] at h
        exact absurd h (fun hh => Except.noConfusion hh)
      | ok cs =>
        rw [hr] at h
        have h' : Except.ok (c :: cs) = Except.ok cells := h
        cases h'
        simp [ih cs hr]

/-- Decomposition of a successfully built row into its name, cells, and
trailing total. -/
theorem buildRow_shape (fl : List (String × String)) (name : String)
    (gpt : Json) (row : List Json) (h : buildRow fl name gpt = .ok row) :
    ∃ cells total, rowCells gpt fl = .ok cells ∧
      pyGetD gpt ("total_score") (.num 0 0) = .ok total ∧
      row = .str name :: cells ++ [total] ∧
      cells.length = fl.length := by
  unfold buildRow at h
  cases hc : rowCells gpt fl with
  | error e =>
    rw [hc] at h
    exact absurd h (fun hh => Except.noConfusion hh)
  | ok cells =>
    rw [hc] at h
    cases ht : pyGetD gpt ("total_score") (.num 0 0) with
    | error e =>
      rw [ht] at h
      exact absurd h (fun hh => Except.noConfusion hh)
    | ok total =>
      rw [ht] at h
      have h' : Except.ok (Json.str name :: cells ++ [total]) = Except.ok row := h
      cases h'
      exact ⟨cells, total, rfl, rfl, rfl, rowCells_length gpt fl cells hc⟩

/-- A score cell is insensitive to a dict insert under any key other than
`"scores"`. -/
theorem cellOf_dictInsert_ne (entries : List (String × Json)) (k' : String)
    (v : Json) (group crit : String) (h : ¬ ("scores" : String) = k') :
    cellOf (.obj (dictInsert entries k' v)) group crit
      = cellOf (.obj entries) group crit := by
  simp only [cellOf, pyGetD, Except.bind,
    dictGetD_dictInsert_ne entries k' v ("scores") (.obj []) h]

/-- A whole row is insensitive to a dict insert under any key other than
`"scores"` and `"total_score"` — in particular under `"candidate_name"`. -/
theorem buildRow_dictInsert_ne (fl : List (String × String)) (name : String)
    (entries : List (String × Json)) (k' : String) (v : Json)
    (hs : ¬ ("scores" : String) = k') (ht : ¬ ("total_score" : String) = k') :
    buildRow fl name (.obj (dictInsert entries k' v))
      = buildRow fl name (.obj entries) := by
  have hcells : rowCells (.obj (dictInsert entries k' v)) fl
      = rowCells (.obj entries) fl := by
    induction fl with
    | nil => rfl
    | cons gc rest ih =>
      simp only [rowCells, cellOf_dictInsert_ne entries k' v gc.1 gc.2 hs, ih]
  simp only [buildRow, hcells, pyGetD,
    dictGetD_dictInsert_ne entries k' v ("total_score") (.num 0 0) ht]

/-- Inversion for a successful `Except` bind: the first action succeeded
and the continuation succeeded on its value. -/
theorem except_bind_ok {ε α β : Type} (x : Except ε α) (f : α → Except ε β)
    (b : β) (h : x >>= f = .ok b) : ∃ a, x = .ok a ∧ f a = .ok b := by
  cases x with
  | error e => exact absurd h (fun hh => Except.noConfusion hh)
  | ok a => exact ⟨a, rfl, h⟩

end Lemmas

section Claims

/-- C1 (counterexample): a two-file batch in which the second file's
document-to-text step fails does not produce a one-row table — the
extraction error propagates out of the loop and the whole scoring request
aborts. -/
theorem c1_counterexample :
    scoreResumesRows [("Must have", "a")]
        (fun _ _ => .ok ("```json\x7b\"total_score\": 4\x7d```"))
        [⟨"a.pdf", .ok ("resume text")⟩,
         ⟨"b.pdf", .error (.docExtract ("Error processing PDF: boom"))⟩]
      = .error (.docExtract ("Error processing PDF: boom")) ∧
    (scoreResumesRows [("Must have", "a")]
        (fun _ _ => .ok ("```json\x7b\"total_score\": 4\x7d```"))
        [⟨"a.pdf", .ok ("resume text")⟩,
         ⟨"b.pdf", .error (.docExtract ("Error processing PDF: boom"))⟩]).isOk
      = false :=
  ⟨rfl, rfl⟩

/-- C1 (amended): when the document-to-text step fails for a resume whose
extension selects an extractor, the batch loop re-raises that error and the
whole request aborts — no table is produced; only unsupported extensions
are skipped. -/
theorem c1_extraction_failure_aborts
    (flattened : List (String × String))
    (completionOf : String → String → Except RankErr String)
    (f : UploadedFile) (rest : List UploadedFile) (e : RankErr)
    (hext : pyEndsWith (pyLower f.filename) ".pdf"
      ∨ pyEndsWith (pyLower f.filename) ".docx")
    (hfail : f.extractResult = .error e) :
    scoreResumesRows flattened completionOf (f :: rest) = .error e := by
  unfold scoreResumesRows
  rw [if_pos hext, hfail]
  rfl

/-- C1 witness: a concrete one-file batch whose extraction fails aborts
with that error. -/
theorem c1_extraction_failure_aborts_witness :
    scoreResumesRows [] (fun _ _ => .ok (""))
        [⟨"b.pdf", .error (.docExtract ("Error processing PDF: boom"))⟩]
      = .error (.docExtract ("Error processing PDF: boom")) :=
  c1_extraction_failure_aborts [] (fun _ _ => .ok (""))
    ⟨"b.pdf", .error (.docExtract ("Error processing PDF: boom"))⟩ [] _
    (Or.inl (by decide)) rfl

/-- C2: the score evaluator parses exactly the completion text with its
first 7 and last 3 characters removed (the fixed-size fence), and when
that stripped text is not valid JSON it fails with the score-parse error
carrying the very text it tried to parse. -/
theorem c2_strip_then_parse (content : String) :
    (∀ j, jsonParse (⟨(content.data.drop 7).take (content.data.length - 10)⟩ : String)
        = some j → gptScoresOfCompletion content = .ok j) ∧
    (jsonParse (stripReply content) = none →
      gptScoresOfCompletion content = .error (.scoreParse (stripReply content))) := by
  constructor
  · intro j hj
    have hj' : jsonParse (stripReply content) = some j := hj
    simp [gptScoresOfCompletion, hj']
  · intro hn
    simp [gptScoresOfCompletion, hn]

/-- C2 witness: a fenced completion parses to its payload, and a completion
whose stripped text is not JSON fails with a score-parse error carrying
that stripped text. -/
theorem c2_strip_then_parse_witness :
    gptScoresOfCompletion ("```json\x7b\"total_score\": 4\x7d```")
      = .ok (.obj [("total_score", .num 4 0)]) ∧
    gptScoresOfCompletion ("```json oops```")
      = .error (.scoreParse (" oops")) :=
  ⟨(c2_strip_then_parse ("```json\x7b\"total_score\": 4\x7d```")).1
      (.obj [("total_score", .num 4 0)]) rfl,
   (c2_strip_then_parse ("```json oops```")).2 rfl⟩

/-- C3 (counterexample): a completion whose raw text is already strict JSON
and contains the string value "True".  A first-attempt strict parse of the
raw text (as the claim describes) would return that value unchanged, but
extraction returns the value already normalized to "true" — the spelling
normalization happens before any parse attempt, not after a failed one. -/
theorem c3_counterexample :
    jsonParse ("\x7b\"a\": \"True\"\x7d") = some (.obj [("a", .str ("True"))]) ∧
    extract_criteria_from_text ("\x7b\"a\": \"True\"\x7d")
      = .ok (.obj [("a", .str ("true"))]) ∧
    ("true" : String) ≠ "True" :=
  ⟨rfl, rfl, by decide⟩

/-- C3 (amended): extraction normalizes the True/False spellings first and
then makes a single strict JSON parse of the normalized text; only if that
parse fails does it attempt a Python literal evaluation of the raw
(unnormalized, whitespace-stripped) text; and when both attempts fail it
fails with the generic OpenAI-processing error, which wraps the exception
message rather than carrying the raw text. -/
theorem c3_parse_order (content : String) :
    (∀ j, jsonParse (pyNormalize (pyStrip content)) = some j →
      extract_criteria_from_text content = .ok j) ∧
    (jsonParse (pyNormalize (pyStrip content)) = none →
      (∀ v, literalEval (pyStrip content) = some v →
        extract_criteria_from_text content = .ok v) ∧
      (literalEval (pyStrip content) = none →
        extract_criteria_from_text content = .error .openaiProcessing)) := by
  refine ⟨fun j hj => ?_, fun hn => ⟨fun v hv => ?_, fun hn2 => ?_⟩⟩
  · simp [extract_criteria_from_text, hj]
  · simp [extract_criteria_from_text, hn, hv]
  · simp [extract_criteria_from_text, hn, hn2]

/-- C3 witness: the three dispatch outcomes at concrete completions — a
JSON success, a JSON failure rescued by the literal fallback (here a
trailing comma, valid Python but invalid JSON), and a double failure. -/
theorem c3_parse_order_witness :
    extract_criteria_from_text ("\x7b\"a\": true\x7d")
      = .ok (.obj [("a", .bool true)]) ∧
    extract_criteria_from_text ("\x7b\"c\": 1,\x7d")
      = .ok (.obj [("c", .num 1 0)]) ∧
    extract_criteria_from_text ("not json (") = .error .openaiProcessing :=
  ⟨(c3_parse_order ("\x7b\"a\": true\x7d")).1 (.obj [("a", .bool true)]) rfl,
   ((c3_parse_order ("\x7b\"c\": 1,\x7d")).2 rfl).1 (.obj [("c", .num 1 0)]) rfl,
   ((c3_parse_order ("not json (")).2 rfl).2 rfl⟩

/-- C4 (counterexample): a criteria mapping that lists "Nice to have"
before "Must have" produces header columns in that submission order, not
in the fixed Must, Good, Nice tier order the claim describes (spelled out
by `buildHeaderSpec`). -/
theorem c4_counterexample :
    (flattenAndHeaders [("Nice to have", .obj [("n1", .bool true)]),
        ("Must have", .obj [("m1", .str ("2"))])]).2
      = ["Nice to have: n1", "Must have: m1"] ∧
    buildHeaderSpec [("Nice to have", .obj [("n1", .bool true)]),
        ("Must have", .obj [("m1", .str ("2"))])]
      = ["Must have: m1", "Nice to have: n1"] ∧
    (["Nice to have: n1", "Must have: m1"] : List String)
      ≠ ["Must have: m1", "Nice to have: n1"] :=
  ⟨rfl, rfl, by decide⟩

/-- C4 (amended): the report header iterates the top-level groups of the
criteria mapping in the mapping's own insertion order — not a fixed tier
order — skipping groups whose value is not a mapping; within a group,
criteria keep insertion order, and each flattened (group, criterion) pair
becomes the column "<group>: <criterion>". -/
theorem c4_header_order (criteria_data : List (String × Json)) :
    (flattenAndHeaders criteria_data).1 = criteria_data.flatMap groupPairs ∧
    (flattenAndHeaders criteria_data).2 = criteria_data.flatMap groupLabels ∧
    (flattenAndHeaders criteria_data).2
      = (flattenAndHeaders criteria_data).1.map (fun p => p.1 ++ ": " ++ p.2) := by
  have h := flattenAndHeaders_eq criteria_data
  refine ⟨by rw [h], by rw [h], ?_⟩
  rw [h]
  show criteria_data.flatMap groupLabels
    = (criteria_data.flatMap groupPairs).map (fun p => p.1 ++ ": " ++ p.2)
  clear h
  induction criteria_data with
  | nil => rfl
  | cons e rest ih =>
    cases he : e.2 <;>
      simp [List.flatMap_cons, groupPairs, groupLabels, he, List.map_append,
        ih, List.map_map, Function.comp_def]

/-- C5 (counterexample): a row whose only criterion cell is 3 but whose
model-reported total is 99 is assembled verbatim — the Total Score cell
(value 99) is not the sum of the row's per-criterion cells (value 3). -/
theorem c5_counterexample :
    buildRow [("Must have", "a")] ("candidate1")
        (.obj [("scores", .obj [("Must have", .obj [("a", .num 3 0)])]),
               ("total_score", .num 99 0)])
      = .ok [.str ("candidate1"), .num 3 0, .num 99 0] ∧
    numVal (.num 99 0) = some 99 ∧
    numVal (.num 3 0) = some 3 ∧
    (99 : ℚ) ≠ 3 :=
  ⟨rfl, by simp [numVal], by simp [numVal], by norm_num⟩

/-- C5 (amended): the Total Score cell of every assembled row is the
model-reported total_score value (0 when the key is absent), taken
verbatim as the last cell; it is not recomputed from, nor checked against,
the per-criterion cells. -/
theorem c5_total_verbatim (fl : List (String × String)) (name : String)
    (gpt : Json) (row : List Json) (h : buildRow fl name gpt = .ok row) :
    ∃ total, pyGetD gpt ("total_score") (.num 0 0) = .ok total ∧
      row.getLast? = some total := by
  obtain ⟨cells, total, _, ht, hrow, _⟩ := buildRow_shape fl name gpt row h
  refine ⟨total, ht, ?_⟩
  rw [hrow, List.getLast?_concat]

/-- C5 witness: a concrete row whose last cell is the model's reported
total. -/
theorem c5_total_verbatim_witness :
    ∃ total, pyGetD (.obj [("total_score", .num 99 0)]) ("total_score") (.num 0 0)
        = .ok total ∧
      ([.str ("c"), .num 99 0] : List Json).getLast? = some total :=
  c5_total_verbatim [] ("c") (.obj [("total_score", .num 99 0)])
    [.str ("c"), .num 99 0] rfl

/-- C6 (counterexample): an extra mapping-valued top-level key ("Projects")
is not ignored downstream — it contributes a header column and a scored
cell to the row. -/
theorem c6_counterexample :
    (flattenAndHeaders [("Must have", .obj [("m", .bool true)]),
        ("Projects", .obj [("p", .str ("d"))])]).2
      = ["Must have: m", "Projects: p"] ∧
    "Projects: p" ∈ (flattenAndHeaders [("Must have", .obj [("m", .bool true)]),
        ("Projects", .obj [("p", .str ("d"))])]).2 ∧
    buildRow (flattenAndHeaders [("Must have", .obj [("m", .bool true)]),
        ("Projects", .obj [("p", .str ("d"))])]).1 ("c")
        (.obj [("scores", .obj [("Projects", .obj [("p", .num 7 0)])])])
      = .ok [.str ("c"), .num 0 0, .num 7 0, .num 0 0] :=
  ⟨rfl, by decide, rfl⟩

/-- C6 (amended): extra top-level keys are retained in the extracted
structure (the parser returns the parsed object unfiltered), but they are
not ignored downstream: every mapping-valued key — one of the three tier
names or not — contributes its header columns and its flattened score-cell
pairs; only keys with non-mapping values are skipped. -/
theorem c6_extra_keys_contribute :
    (∀ content j, jsonParse (pyNormalize (pyStrip content)) = some j →
      extract_criteria_from_text content = .ok j) ∧
    (∀ (criteria_data : List (String × Json)) (g : String)
        (kvs : List (String × Json)) (k : String) (v : Json),
      (g, Json.obj kvs) ∈ criteria_data → (k, v) ∈ kvs →
      (g ++ ": " ++ k) ∈ (flattenAndHeaders criteria_data).2 ∧
      (g, k) ∈ (flattenAndHeaders criteria_data).1) := by
  constructor
  · intro content j hj
    simp [extract_criteria_from_text, hj]
  · intro cd g kvs k v hg hkv
    have heq := flattenAndHeaders_eq cd
    constructor
    · rw [heq]
      exact List.mem_flatMap.mpr
        ⟨(g, .obj kvs), hg, List.mem_map.mpr ⟨(k, v), hkv, rfl⟩⟩
    · rw [heq]
      exact List.mem_flatMap.mpr
        ⟨(g, .obj kvs), hg, List.mem_map.mpr ⟨(k, v), hkv, rfl⟩⟩

/-- C6 witness: a concrete criteria payload with the extra key "Projects"
is returned with the key retained, and the extra key's criterion appears
in the header labels and flattened pairs. -/
theorem c6_extra_keys_contribute_witness :
    extract_criteria_from_text
        ("\x7b\"Must have\": \x7b\"m\": true\x7d, \"Projects\": \x7b\"p\": 1\x7d\x7d")
      = .ok (.obj [("Must have", .obj [("m", .bool true)]),
                   ("Projects", .obj [("p", .num 1 0)])]) ∧
    ("Projects" ++ ": " ++ "p")
      ∈ (flattenAndHeaders [("Projects", .obj [("p", .num 1 0)])]).2 ∧
    ("Projects", "p") ∈ (flattenAndHeaders [("Projects", .obj [("p", .num 1 0)])]).1 :=
  ⟨c6_extra_keys_contribute.1
      ("\x7b\"Must have\": \x7b\"m\": true\x7d, \"Projects\": \x7b\"p\": 1\x7d\x7d")
      (.obj [("Must have", .obj [("m", .bool true)]),
             ("Projects", .obj [("p", .num 1 0)])]) rfl,
   (c6_extra_keys_contribute.2 [("Projects", .obj [("p", .num 1 0)])]
      ("Projects") [("p", .num 1 0)] ("p") (.num 1 0)
      (by simp) (by simp)).1,
   (c6_extra_keys_contribute.2 [("Projects", .obj [("p", .num 1 0)])]
      ("Projects") [("p", .num 1 0)] ("p") (.num 1 0)
      (by simp) (by simp)).2⟩

/-- C7: a flattened (tier, criterion) pair absent from the candidate's
parsed score structure yields the cell 0 without raising, and every
successfully assembled row is the candidate name, one cell per flattened
pair, and the model-reported total appended as the last cell. -/
theorem c7_missing_criterion_zero :
    (∀ (gpt : Json) (scores gentries : List (String × Json)) (group crit : String),
      pyGetD gpt ("scores") (.obj []) = .ok (.obj scores) →
      dictGetD scores group (.obj []) = .obj gentries →
      gentries.find? (fun e => e.1 = crit) = none →
      cellOf gpt group crit = .ok (.num 0 0)) ∧
    (∀ (fl : List (String × String)) (name : String) (gpt : Json)
        (row : List Json),
      buildRow fl name gpt = .ok row →
      ∃ cells total, row = .str name :: cells ++ [total] ∧
        cells.length = fl.length ∧
        pyGetD gpt ("total_score") (.num 0 0) = .ok total) := by
  constructor
  · intro gpt scores gentries group crit hs hg hf
    unfold cellOf
    rw [hs]
    show pyGetD (dictGetD scores group (.obj [])) crit (.num 0 0)
      = .ok (.num 0 0)
    rw [hg]
    show Except.ok (dictGetD gentries crit (.num 0 0)) = .ok (.num 0 0)
    unfold dictGetD
    rw [hf]
  · intro fl name gpt row h
    obtain ⟨cells, total, _, ht, hrow, hlen⟩ := buildRow_shape fl name gpt row h
    exact ⟨cells, total, hrow, hlen, ht⟩

/-- C7 witness: a candidate whose response has no scores at all gets the
cell 0 for a flattened pair, and a concrete assembled row decomposes into
name, cells, and trailing total. -/
theorem c7_missing_criterion_zero_witness :
    cellOf (.obj []) ("Must have") ("a") = .ok (.num 0 0) ∧
    (∃ cells total,
      ([.str ("c"), .num 0 0, .num 0 0] : List Json) = .str ("c") :: cells ++ [total] ∧
      cells.length = [("Must have", "a")].length ∧
      pyGetD (.obj ([] : List (String × Json))) ("total_score") (.num 0 0) = .ok total) :=
  ⟨c7_missing_criterion_zero.1 (.obj []) [] [] ("Must have") ("a") rfl rfl rfl,
   c7_missing_criterion_zero.2 [("Must have", "a")] ("c") (.obj [])
     [.str ("c"), .num 0 0, .num 0 0] rfl⟩

/-- C8: the Candidate Name cell of a processed file's row is the filename
with everything from the last dot removed, and the assembled row is
unchanged by whatever candidate_name value the model's response carries. -/
theorem c8_candidate_name_from_filename :
    (∀ (fl : List (String × String))
        (completionOf : String → String → Except RankErr String)
        (f : UploadedFile) (rest : List UploadedFile)
        (row : List Json) (rows : List (List Json)),
      scoreResumesRows fl completionOf (f :: rest) = .ok (row :: rows) →
      (pyEndsWith (pyLower f.filename) (".pdf")
        ∨ pyEndsWith (pyLower f.filename) (".docx")) →
      row.head? = some (.str (rsplitDotHead f.filename))) ∧
    (∀ (fl : List (String × String)) (name : String)
        (entries : List (String × Json)) (v : Json),
      buildRow fl name (.obj (dictInsert entries ("candidate_name") v))
        = buildRow fl name (.obj entries)) := by
  constructor
  · intro fl comp f rest row rows h hext
    simp only [scoreResumesRows] at h
    rw [if_pos hext] at h
    obtain ⟨text, hc, h⟩ := except_bind_ok _ _ _ h
    obtain ⟨gpt, hg, h⟩ := except_bind_ok _ _ _ h
    obtain ⟨row2, hb, h⟩ := except_bind_ok _ _ _ h
    obtain ⟨rows2, hr, h⟩ := except_bind_ok _ _ _ h
    have h' : Except.ok (row2 :: rows2) = Except.ok (row :: rows) := h
    injection h' with hlist
    injection hlist with hrow hrows
    obtain ⟨cells, total, _, _, hrow2, _⟩ :=
      buildRow_shape fl (rsplitDotHead f.filename) gpt row2 hb
    rw [← hrow, hrow2]
    rfl
  · intro fl name entries v
    exact buildRow_dictInsert_ne fl name entries ("candidate_name") v
      (by decide) (by decide)

/-- C8 witness: a file named "jane.doe.pdf" yields the Candidate Name cell
"jane.doe" whatever the model replies, and inserting a candidate_name key
into a concrete response leaves the assembled row unchanged. -/
theorem c8_candidate_name_from_filename_witness :
    ([Json.str ("jane.doe"), Json.num 4 0] : List Json).head?
      = some (.str (rsplitDotHead ("jane.doe.pdf"))) ∧
    buildRow [] ("c")
        (.obj (dictInsert [("total_score", .num 4 0)] ("candidate_name")
          (.str ("Model Says Bob"))))
      = buildRow [] ("c") (.obj [("total_score", .num 4 0)]) :=
  ⟨c8_candidate_name_from_filename.1 []
      (fun _ _ => .ok ("```json\x7b\"total_score\": 4\x7d```"))
      ⟨"jane.doe.pdf", .ok ("text")⟩ []
      [Json.str ("jane.doe"), Json.num 4 0] [] rfl (Or.inl (by decide)),
   c8_candidate_name_from_filename.2 [] ("c") [("total_score", .num 4 0)]
     (.str ("Model Says Bob"))⟩

/-- C9: a file whose lowercased name ends in neither ".pdf" nor ".docx" is
silently skipped — the batch result is exactly the result for the
remaining files, for every completion service and every extraction
outcome, so no completion request is made for it, no row appears, and no
error is raised. -/
theorem c9_unsupported_extension_skipped
    (fl : List (String × String))
    (completionOf : String → String → Except RankErr String)
    (f : UploadedFile) (rest : List UploadedFile)
    (h1 : ¬ pyEndsWith (pyLower f.filename) (".pdf"))
    (h2 : ¬ pyEndsWith (pyLower f.filename) (".docx")) :
    scoreResumesRows fl completionOf (f :: rest)
      = scoreResumesRows fl completionOf rest := by
  simp only [scoreResumesRows]
  rw [if_neg (fun hor => hor.elim h1 h2)]

/-- C9 witness: a ".txt" file whose extraction outcome is even a failure
contributes nothing: the one-file batch produces the empty table. -/
theorem c9_unsupported_extension_skipped_witness :
    scoreResumesRows [] (fun _ _ => .ok ("x"))
        [⟨"resume.txt", .error (.docExtract ("broken"))⟩]
      = .ok [] :=
  c9_unsupported_extension_skipped [] (fun _ _ => .ok ("x"))
    ⟨"resume.txt", .error (.docExtract ("broken"))⟩ []
    (by decide) (by decide)

/-- C10 (counterexample): for the completion text \x7b'a': 'True'\x7d (single
quotes, so the normalized text is not valid JSON), extraction falls back
to literal evaluation of the raw text and returns a criteria structure
whose string value is still "True" — not altered to "true" as the claim
requires, even though the text-level replacement did happen. -/
theorem c10_counterexample :
    extract_criteria_from_text ("\x7b\"a\": \"True\",\x7d")
      = .ok (.obj [("a", .str ("True"))]) ∧
    pyNormalize ("\x7b\"a\": \"True\",\x7d") = "\x7b\"a\": \"true\",\x7d" :=
  ⟨rfl, rfl⟩

/-- C10 (amended): the True/False replacement is applied to the whole
completion text — including inside string values — but only for the JSON
parse attempt, so string values are altered exactly when that parse
succeeds; a structure returned through the literal-eval fallback is parsed
from the raw text and keeps its values unaltered. -/
theorem c10_replacement_scope :
    (∀ content v, jsonParse (pyNormalize (pyStrip content)) = none →
      literalEval (pyStrip content) = some v →
      extract_criteria_from_text content = .ok v) ∧
    extract_criteria_from_text ("\x7b\"k\": \"xTruey False\"\x7d")
      = .ok (.obj [("k", .str ("xtruey false"))]) := by
  constructor
  · intro content v hn hv
    simp [extract_criteria_from_text, hn, hv]
  · rfl

/-- C10 witness: a concrete completion rescued by the fallback keeps its
"False" string value unaltered. -/
theorem c10_replacement_scope_witness :
    extract_criteria_from_text ("\x7b\"b\": \"False\",\x7d")
      = .ok (.obj [("b", .str ("False"))]) :=
  c10_replacement_scope.1 ("\x7b\"b\": \"False\",\x7d")
    (.obj [("b", .str ("False"))]) rfl rfl

end Claims

end ResumeRanking
